import Mathlib

/-!
# Verification of `SimpleAuditToolNode` (src/src/deepagents/audit_tool_node.py)

A shallow embedding of the tool-call audit interceptor.  Python runtime values
are modelled by the inductive type `PyValue`; exceptions by `PyExc`; the file
system effects of `_write_audit_log` by a list of `FSEvent`s.  The wrapped
executor (`super().invoke` / `super().ainvoke`) is an external collaborator and
is modelled as a parameter of type `Except PyExc PyValue` (its return value or
the exception it raises).  Wall-clock readings (`%H%M%S`, `%Y%m%d`,
`isoformat`, elapsed milliseconds) and the generated uuid are likewise
parameters, collected in `InvokeEnv`.
-/

set_option maxRecDepth 4000

namespace Audit

/-- Python runtime values as they occur in the audit interceptor: `None`,
booleans, integers, strings, lists, dicts (association lists of key/value
pairs, first occurrence wins on lookup), `ToolMessage` objects (their `content`
field plus the remaining fields abstracted as `tcid`/`aux`), and arbitrary
other objects (`obj s` is an object whose `str()` form is `s`). -/
inductive PyValue where
  | none : PyValue
  | bool : Bool → PyValue
  | int : Int → PyValue
  | str : String → PyValue
  | list : List PyValue → PyValue
  | dict : List (PyValue × PyValue) → PyValue
  | toolMessage : PyValue → String → String → PyValue
  | obj : String → PyValue
deriving Repr

/-- Python's `type(v).__name__` for the modelled values (used in exception
messages such as `'int' object has no attribute 'get'`). -/
def pyTypeName : PyValue → String
  | .none => "NoneType"
  | .bool _ => "bool"
  | .int _ => "int"
  | .str _ => "str"
  | .list _ => "list"
  | .dict _ => "dict"
  | .toolMessage _ _ _ => "ToolMessage"
  | .obj _ => "object"

/-- Python truthiness (`if result:`): `None`, `False`, `0`, `""`, `[]`, `{}`
are falsy; `ToolMessage` objects and other objects are truthy. -/
def PyValue.truthy : PyValue → Bool
  | .none => false
  | .bool b => b
  | .int n => decide (n ≠ 0)
  | .str s => decide (s ≠ "")
  | .list [] => false
  | .list (_ :: _) => true
  | .dict [] => false
  | .dict (_ :: _) => true
  | .toolMessage _ _ _ => true
  | .obj _ => true

/-- Python `str(v)`.  Exact for the scalar shapes the audit code interpolates
into file names and summary lines; the `str()` of containers and messages is
abbreviated since no claim depends on its exact text. -/
def pyStr : PyValue → String
  | .none => "None"
  | .bool true => "True"
  | .bool false => "False"
  | .int n => toString n
  | .str s => s
  | .list _ => "<list>"
  | .dict _ => "<dict>"
  | .toolMessage _ _ _ => "<ToolMessage>"
  | .obj s => s

mutual

/-- Structural equality test, used only for dict-key lookup (`d[0]`). -/
def pyBeq : PyValue → PyValue → Bool
  | .none, .none => true
  | .bool a, .bool b => a == b
  | .int a, .int b => a == b
  | .str a, .str b => a == b
  | .list xs, .list ys => pyBeqList xs ys
  | .dict xs, .dict ys => pyBeqPairs xs ys
  | .toolMessage c t a, .toolMessage c2 t2 a2 => pyBeq c c2 && t == t2 && a == a2
  | .obj a, .obj b => a == b
  | _, _ => false

/-- Elementwise equality of lists of values. -/
def pyBeqList : List PyValue → List PyValue → Bool
  | [], [] => true
  | x :: xs, y :: ys => pyBeq x y && pyBeqList xs ys
  | _, _ => false

/-- Elementwise equality of lists of key/value pairs. -/
def pyBeqPairs : List (PyValue × PyValue) → List (PyValue × PyValue) → Bool
  | [], [] => true
  | (k, v) :: xs, (k2, v2) :: ys => pyBeq k k2 && pyBeq v v2 && pyBeqPairs xs ys
  | _, _ => false

end

/-- Lookup of a string key in a dict (first matching pair). -/
def dictGetStr (kvs : List (PyValue × PyValue)) (k : String) : Option PyValue :=
  match kvs with
  | [] => Option.none
  | (.str k', v) :: rest => if k' = k then some v else dictGetStr rest k
  | _ :: rest => dictGetStr rest k

/-- Lookup of an arbitrary key in a dict (first matching pair), for `d[0]`. -/
def dictGetKey (kvs : List (PyValue × PyValue)) (k : PyValue) : Option PyValue :=
  match kvs with
  | [] => Option.none
  | (k', v) :: rest => if pyBeq k' k then some v else dictGetKey rest k

/-- Replace the value stored under a string key (first matching pair); models
the in-place mutation `result["messages"][0].content = ...` seen through the
enclosing dict. -/
def dictSetStr (kvs : List (PyValue × PyValue)) (k : String) (v : PyValue) :
    List (PyValue × PyValue) :=
  match kvs with
  | [] => []
  | (.str k', v') :: rest =>
      if k' = k then (.str k', v) :: rest else (.str k', v') :: dictSetStr rest k v
  | p :: rest => p :: dictSetStr rest k v

/-- Replace the value stored under an arbitrary key (first matching pair). -/
def dictSetKey (kvs : List (PyValue × PyValue)) (k v : PyValue) :
    List (PyValue × PyValue) :=
  match kvs with
  | [] => []
  | (k', v') :: rest =>
      if pyBeq k' k then (k', v) :: rest else (k', v') :: dictSetKey rest k v

/-- A Python exception: class name and `str(e)`. -/
structure PyExc where
  name : String
  msg : String
deriving DecidableEq, Repr

/-- Does the character list start with the pattern? -/
def charsStartsWith : List Char → List Char → Bool
  | _, [] => true
  | [], _ :: _ => false
  | c :: cs, p :: ps => c == p && charsStartsWith cs ps

/-- Index of the first occurrence of `pat` in the character list, if any. -/
def charsFindSub (pat : List Char) : List Char → Option Nat
  | [] => if charsStartsWith [] pat then some 0 else Option.none
  | c :: rest =>
      if charsStartsWith (c :: rest) pat then some 0
      else (charsFindSub pat rest).map (· + 1)

/-- Index of the first occurrence of `pat` as a substring of `s` (in
characters), if any. -/
def findSubstrIdx (s pat : String) : Option Nat :=
  charsFindSub pat.data s.data

/-- Drop the first `n` characters of a string. -/
def strDrop (s : String) (n : Nat) : String :=
  ⟨s.data.drop n⟩

/-- Take the first `n` characters of a string (Python `s[:n]`). -/
def strTake (s : String) (n : Nat) : String :=
  ⟨s.data.take n⟩

/-- `extract_from_workspace`: `re.search(r'workspace.*$', input_string)` —
the substring of the path from the first occurrence of `workspace` to the end,
or the fixed fallback text when the marker is absent.  (The generated audit
paths contain no newline, so first-occurrence-to-end is exactly the regex's
behaviour on every input the code passes in.) -/
def extract_from_workspace (input_string : String) : String :=
  match findSubstrIdx input_string "workspace" with
  | some i => strDrop input_string i
  | Option.none => "暂时没有明确的工作空间路径"

/-- The label prepended by `_attach_audit_file_path` (source line 87). -/
def pathLabel : String := "当前数据的相对 workspace 的文件路径(即引用路径):"

/-- `_attach_audit_file_path`: `None` passes through, a string gets
`f"{file_path}{audit_file_path}\n"` prepended, every other value is returned
unchanged. -/
def attach_audit_file_path (result : PyValue) (audit_file_path : String) : PyValue :=
  let ap := extract_from_workspace audit_file_path
  match result with
  | .none => .none
  | .str s => .str (pathLabel ++ ap ++ "\n" ++ s)
  | r => r

/-- Python `v[0]`: list/str indexing, dict lookup of the key `0`; any other
receiver raises `TypeError`. -/
def pyIndex0 : PyValue → Except PyExc PyValue
  | .list [] => .error ⟨"IndexError", "list index out of range"⟩
  | .list (x :: _) => .ok x
  | .str s =>
      if s = "" then .error ⟨"IndexError", "string index out of range"⟩
      else .ok (.str (strTake s 1))
  | .dict kvs =>
      match dictGetKey kvs (.int 0) with
      | some v => .ok v
      | Option.none => .error ⟨"KeyError", "0"⟩
  | v => .error ⟨"TypeError", "'" ++ pyTypeName v ++ "' object is not subscriptable"⟩

/-- `_extract_output_content_and_add_audit_path`.  Returns the pair
`(output_content, result-after-mutation)`: the Python method mutates `result`
(or `result["messages"][0]`) in place and returns the extracted
`output_content`, which the caller records as the audit `output`.  Falsy
results are left alone with `output_content = None`.  A truthy non-indexable
`result["messages"]` makes `messages[0]` raise, which this model surfaces as
an `Except.error`. -/
def extract_output_content_and_add_audit_path (result : PyValue)
    (audit_file_path : String) : Except PyExc (PyValue × PyValue) :=
  if result.truthy then
    match result with
    | .toolMessage c tcid aux =>
        .ok (c, .toolMessage (attach_audit_file_path c audit_file_path) tcid aux)
    | .dict kvs =>
        match dictGetStr kvs "messages" with
        | some messages =>
            if messages.truthy then
              match pyIndex0 messages with
              | .error e => .error e
              | .ok first =>
                  match first, messages with
                  | .toolMessage c tcid aux, .list (_ :: rest) =>
                      .ok (c, .dict (dictSetStr kvs "messages"
                        (.list (.toolMessage
                          (attach_audit_file_path c audit_file_path) tcid aux :: rest))))
                  | .toolMessage c tcid aux, .dict mkvs =>
                      .ok (c, .dict (dictSetStr kvs "messages"
                        (.dict (dictSetKey mkvs (.int 0)
                          (.toolMessage
                            (attach_audit_file_path c audit_file_path) tcid aux)))))
                  | _, _ => .ok (.none, result)
            else .ok (.none, result)
        | Option.none =>
            .ok (attach_audit_file_path result audit_file_path, result)
    | r => .ok (attach_audit_file_path r audit_file_path, r)
  else .ok (.none, result)

/-- The audit record of `_write_audit_log` (source lines 145–154).
`execution_time_ms` abstracts Python's float millisecond reading as a natural
number; no claim depends on its value. -/
structure AuditRecord where
  tool_call_id : PyValue
  tool_name : PyValue
  timestamp : String
  execution_time_ms : Nat
  input : PyValue
  output : PyValue
  error : Option String
  status : String
deriving Repr

/-- Record construction including the derived `status`
(`"failed" if error else "success"`: Python truthiness, so an *empty* error
string also yields `"success"`). -/
def buildAuditRecord (tool_name tool_call_id : PyValue) (iso : String)
    (ms : Nat) (input_data output_data : PyValue) (error : Option String) :
    AuditRecord :=
  { tool_call_id := tool_call_id
    tool_name := tool_name
    timestamp := iso
    execution_time_ms := ms
    input := input_data
    output := output_data
    error := error
    status := match error with
      | Option.none => "success"
      | some s => if s = "" then "success" else "failed" }

/-- `_generate_audit_file_path`:
`str(self.audit_dir) + "/" + f"{timestamp.strftime('%H%M%S')}_{tool_name}.json"`.
The clock reading `hhmmss` is a parameter. -/
def generate_audit_file_path (audit_dir : String) (hhmmss : String)
    (tool_name : PyValue) : String :=
  audit_dir ++ "/" ++ hhmmss ++ "_" ++ pyStr tool_name ++ ".json"

/-- `pathlib.Path(p).parent` rendered as a string, for the `dir/file` shapes
the interceptor builds: everything before the last `/`, or `.` when there is
no separator. -/
def parentDir (p : String) : String :=
  let parts := p.data.splitOn '/'
  if parts.length ≤ 1 then "." else ⟨List.intercalate ['/'] parts.dropLast⟩

/-- `f"{filepath.parent}/summary_{datetime.now().strftime('%Y%m%d')}.jsonl"`. -/
def summaryFilePath (audit_file_path : String) (yyyymmdd : String) : String :=
  parentDir audit_file_path ++ "/summary_" ++ yyyymmdd ++ ".jsonl"

/-- A file-system effect of `_write_audit_log`: the pretty-printed per-call
file write, or the compact line appended to the daily summary.  Both carry the
serialized `AuditRecord`. -/
inductive FSEvent where
  | writeAuditFile : String → AuditRecord → FSEvent
  | appendSummaryLine : String → AuditRecord → FSEvent
deriving Repr

/-- The effects of one `_write_audit_log` call: exactly one per-call file
write followed by exactly one summary-line append, both of the same record. -/
def write_audit_log_events (audit_file_path yyyymmdd : String)
    (record : AuditRecord) : List FSEvent :=
  [FSEvent.writeAuditFile audit_file_path record,
   FSEvent.appendSummaryLine (summaryFilePath audit_file_path yyyymmdd) record]

/-- Python `tool_call.get(key, default)`: dict lookup with default; any
non-dict receiver has no `get` attribute and raises `AttributeError`. -/
def pyGet (v : PyValue) (key : String) (dflt : PyValue) : Except PyExc PyValue :=
  match v with
  | .dict kvs => .ok ((dictGetStr kvs key).getD dflt)
  | _ => .error ⟨"AttributeError",
      "'" ++ pyTypeName v ++ "' object has no attribute 'get'"⟩

/-- Tool-call extraction (source lines 182–191 / 256–265): pick `tool_call`
from the input shape, then read `name` / `id` / `args` with defaults.  `uuid`
is the fresh `str(uuid.uuid4())` used for the synthesized id, of which the
first 8 characters are taken.  Returns `(tool_name, tool_call_id, tool_args)`
or the exception the probing raises. -/
def extractToolCall (input : PyValue) (uuid : String) :
    Except PyExc (PyValue × PyValue × PyValue) := do
  let tool_call ← (
    match input with
    | .list (x :: _) => Except.ok x
    | .dict kvs =>
        match dictGetStr kvs "tool_calls" with
        | some tcs => if tcs.truthy then pyIndex0 tcs else Except.ok (.dict [])
        | Option.none => Except.ok (.dict kvs)
    | _ => Except.ok (.dict []))
  let tool_name ← pyGet tool_call "name" (.str "unknown")
  let tool_call_id ← pyGet tool_call "id" (.str (strTake uuid 8))
  let tool_args ← pyGet tool_call "args" (.dict [])
  Except.ok (tool_name, tool_call_id, tool_args)

/-- Python `v[:8]` as used by the status print (`tool_call_id[:8]`, line 223 /
299): succeeds on strings and lists, raises `TypeError` otherwise.  A raise
here happens inside the `finally`, after the audit write, and displaces the
in-flight result or exception. -/
def pySliceCheck : PyValue → Except PyExc Unit
  | .str _ => .ok ()
  | .list _ => .ok ()
  | .dict _ => .error ⟨"TypeError", "unhashable type: 'slice'"⟩
  | v => .error ⟨"TypeError", "'" ++ pyTypeName v ++ "' object is not subscriptable"⟩

/-- The tail of the `finally` block after `_write_audit_log`: the status print
slices `tool_call_id`; if that raises, the exception displaces `ret` (the
audit events have already been written). -/
def finishWith (ret : Except PyExc PyValue) (tool_call_id : PyValue)
    (evs : List FSEvent) : Except PyExc PyValue × List FSEvent :=
  match pySliceCheck tool_call_id with
  | .ok _ => (ret, evs)
  | .error e => (.error e, evs)

/-- The exception Python raises when `invoke`'s `finally` reads the local
`output_content` after the `try` body raised before line 202 assigned it. -/
def unboundLocalError : PyExc :=
  ⟨"UnboundLocalError",
   "cannot access local variable 'output_content' where it is not associated with a value"⟩

/-- The per-invocation environment: the fresh uuid, the audit directory, the
clock readings and the measured elapsed milliseconds. -/
structure InvokeEnv where
  uuid : String
  audit_dir : String
  hhmmss : String
  yyyymmdd : String
  iso : String
  ms : Nat
deriving Repr

/-- `SimpleAuditToolNode.invoke` (source lines 168–224).  `superResult` is the
behaviour of the delegated `super().invoke` call: its return value or the
exception it raises.  Returns what the caller observes (value or exception)
together with the file-system events performed.  The local `output_content`
is *not* initialized before the `try`, so any raise from the wrapped call (or
from content extraction) makes the `finally` read an unbound local:
`UnboundLocalError` propagates and `_write_audit_log` never runs. -/
def invokeModel (env : InvokeEnv) (input : PyValue)
    (superResult : Except PyExc PyValue) : Except PyExc PyValue × List FSEvent :=
  match extractToolCall input env.uuid with
  | .error e => (.error e, [])
  | .ok (tool_name, tool_call_id, tool_args) =>
    let audit_file_path := generate_audit_file_path env.audit_dir env.hhmmss tool_name
    match superResult with
    | .ok result =>
        match extract_output_content_and_add_audit_path result audit_file_path with
        | .ok (output_content, result') =>
            let record := buildAuditRecord tool_name tool_call_id env.iso env.ms
              tool_args output_content Option.none
            finishWith (.ok result') tool_call_id
              (write_audit_log_events audit_file_path env.yyyymmdd record)
        | .error _ => (.error unboundLocalError, [])
    | .error _ => (.error unboundLocalError, [])

/-- `SimpleAuditToolNode.ainvoke` (source lines 242–300).  Identical to
`invoke` except that `output_content = None` *is* initialized before the
`try` (line 273), so on a raise the `finally` writes the failed audit record
and the original exception is re-raised. -/
def ainvokeModel (env : InvokeEnv) (input : PyValue)
    (superResult : Except PyExc PyValue) : Except PyExc PyValue × List FSEvent :=
  match extractToolCall input env.uuid with
  | .error e => (.error e, [])
  | .ok (tool_name, tool_call_id, tool_args) =>
    let audit_file_path := generate_audit_file_path env.audit_dir env.hhmmss tool_name
    match superResult with
    | .ok result =>
        match extract_output_content_and_add_audit_path result audit_file_path with
        | .ok (output_content, result') =>
            let record := buildAuditRecord tool_name tool_call_id env.iso env.ms
              tool_args output_content Option.none
            finishWith (.ok result') tool_call_id
              (write_audit_log_events audit_file_path env.yyyymmdd record)
        | .error e =>
            let record := buildAuditRecord tool_name tool_call_id env.iso env.ms
              tool_args .none (some e.msg)
            finishWith (.error e) tool_call_id
              (write_audit_log_events audit_file_path env.yyyymmdd record)
    | .error e =>
        let record := buildAuditRecord tool_name tool_call_id env.iso env.ms
          tool_args .none (some e.msg)
        finishWith (.error e) tool_call_id
          (write_audit_log_events audit_file_path env.yyyymmdd record)

/-- JSON string escaping for one character (backslash, quote and the common
control characters; the remaining `\uXXXX` escapes of `ensure_ascii=False`
output are identity on the strings any claim touches). -/
def jsonEscapeChar (c : Char) : String :=
  if c = '\\' then "\\\\"
  else if c = '"' then "\\\""
  else if c = '\n' then "\\n"
  else if c = '\t' then "\\t"
  else if c = '\r' then "\\r"
  else String.singleton c

/-- JSON string escaping. -/
def jsonEscape (s : String) : String :=
  String.join (s.data.map jsonEscapeChar)

/-- `json.dump`'s coercion of a dict key: `str`, `int`, `bool` and `None`
keys are rendered as strings; any other key raises
`TypeError: keys must be str, int, float, bool or None` — the `default=str`
hook is *not* consulted for keys. -/
def jsonKeyStr : PyValue → Except String String
  | .str s => .ok s
  | .int n => .ok (toString n)
  | .bool true => .ok "true"
  | .bool false => .ok "false"
  | .none => .ok "null"
  | v => .error ("keys must be str, int, float, bool or None, not " ++ pyTypeName v)

mutual

/-- `json.dumps(v, ensure_ascii=False, default=str)` with the compact
separators of the summary line.  Unserializable values (`ToolMessage`,
arbitrary objects) are routed through `default=str` and rendered as JSON
strings; unserializable dict *keys* raise.  The pretty-printed per-call dump
(`indent=2`) differs from this only in inter-token whitespace. -/
def jsonDumps : PyValue → Except String String
  | .none => .ok "null"
  | .bool true => .ok "true"
  | .bool false => .ok "false"
  | .int n => .ok (toString n)
  | .str s => .ok ("\"" ++ jsonEscape s ++ "\"")
  | .list xs =>
      match jsonDumpsList xs with
      | .error e => .error e
      | .ok parts => .ok ("[" ++ String.intercalate ", " parts ++ "]")
  | .dict kvs =>
      match jsonDumpsPairs kvs with
      | .error e => .error e
      | .ok parts => .ok ("\x7b" ++ String.intercalate ", " parts ++ "\x7d")
  | .toolMessage c tcid aux =>
      .ok ("\"" ++ jsonEscape (pyStr (.toolMessage c tcid aux)) ++ "\"")
  | .obj s => .ok ("\"" ++ jsonEscape s ++ "\"")

/-- Serialization of the elements of a list, first failure wins. -/
def jsonDumpsList : List PyValue → Except String (List String)
  | [] => .ok []
  | x :: xs =>
      match jsonDumps x, jsonDumpsList xs with
      | .error e, _ => .error e
      | .ok _, .error e => .error e
      | .ok s, .ok rest => .ok (s :: rest)

/-- Serialization of the key/value pairs of a dict, first failure wins. -/
def jsonDumpsPairs : List (PyValue × PyValue) → Except String (List String)
  | [] => .ok []
  | (k, v) :: rest =>
      match jsonKeyStr k, jsonDumps v, jsonDumpsPairs rest with
      | .error e, _, _ => .error e
      | .ok _, .error e, _ => .error e
      | .ok _, .ok _, .error e => .error e
      | .ok ks, .ok vs, .ok more =>
          .ok (("\"" ++ jsonEscape ks ++ "\": " ++ vs) :: more)

end

/-- Is this value allowed as a `json` dict key without `default`? -/
def jsonPrimitiveKey : PyValue → Bool
  | .str _ => true
  | .int _ => true
  | .bool _ => true
  | .none => true
  | _ => false

mutual

/-- Every dict key anywhere inside the value is JSON-primitive. -/
def keysPrimitive : PyValue → Bool
  | .list xs => keysPrimitiveList xs
  | .dict kvs => keysPrimitivePairs kvs
  | _ => true

/-- `keysPrimitive` on every element of a list. -/
def keysPrimitiveList : List PyValue → Bool
  | [] => true
  | x :: xs => keysPrimitive x && keysPrimitiveList xs

/-- Primitive keys and `keysPrimitive` values throughout a dict. -/
def keysPrimitivePairs : List (PyValue × PyValue) → Bool
  | [] => true
  | (k, v) :: rest => jsonPrimitiveKey k && keysPrimitive v && keysPrimitivePairs rest

end

/-- The dict literal serialized by `_write_audit_log` (source lines 145–154),
key order as written. -/
def auditRecordToValue (r : AuditRecord) : PyValue :=
  .dict [
    (.str "tool_call_id", r.tool_call_id),
    (.str "tool_name", r.tool_name),
    (.str "timestamp", .str r.timestamp),
    (.str "execution_time_ms", .int r.execution_time_ms),
    (.str "input", r.input),
    (.str "output", r.output),
    (.str "error", match r.error with | Option.none => .none | some s => .str s),
    (.str "status", .str r.status)]

/-- A well-formed single-tool-call input: a mapping with `name`, `id` and
`args` keys (the third accepted input shape). -/
def simpleCallInput (name id : String) (args : PyValue) : PyValue :=
  .dict [(.str "name", .str name), (.str "id", .str id), (.str "args", args)]

/-! ## Helper lemmas -/

/-- Extraction on a well-formed single-call mapping yields its fields. -/
theorem extractToolCall_simple (name id : String) (args : PyValue) (uuid : String) :
    extractToolCall (simpleCallInput name id args) uuid =
      .ok (.str name, .str id, args) := rfl

/-- A truthy plain-string result: `output_content` becomes the rewritten
string while the result object itself is left as the original string. -/
theorem extract_output_str (s : String) (hs : s ≠ "") (p : String) :
    extract_output_content_and_add_audit_path (.str s) p =
      .ok (.str (pathLabel ++ extract_from_workspace p ++ "\n" ++ s), .str s) := by
  simp [extract_output_content_and_add_audit_path, PyValue.truthy, hs,
    attach_audit_file_path]

/-- `invoke` on a well-formed call whose wrapped result is a non-empty plain
string: the caller receives the original string unchanged, and the audit
record's `output` is the rewritten (label-prefixed) string. -/
theorem invokeModel_simple_str (env : InvokeEnv) (name id : String)
    (args : PyValue) (s : String) (hs : s ≠ "") :
    invokeModel env (simpleCallInput name id args) (.ok (.str s)) =
      (.ok (.str s),
       write_audit_log_events
         (generate_audit_file_path env.audit_dir env.hhmmss (.str name))
         env.yyyymmdd
         (buildAuditRecord (.str name) (.str id) env.iso env.ms args
           (.str (pathLabel ++
             extract_from_workspace
               (generate_audit_file_path env.audit_dir env.hhmmss (.str name)) ++
             "\n" ++ s))
           Option.none)) := by
  simp [invokeModel, extractToolCall_simple, extract_output_str s hs,
    finishWith, pySliceCheck]

/-- Rewriting the value stored under one string key leaves the lookup of
every other string key unchanged. -/
theorem dictGetStr_setStr_ne (kvs : List (PyValue × PyValue)) (k k' : String)
    (v : PyValue) (h : k' ≠ k) :
    dictGetStr (dictSetStr kvs k v) k' = dictGetStr kvs k' := by
  induction kvs with
  | nil => rfl
  | cons p rest ih =>
      obtain ⟨pk, pv⟩ := p
      cases pk with
      | str s =>
          by_cases hsk : s = k
          · subst hsk
            simp [dictSetStr, dictGetStr, Ne.symm h]
          · simp [dictSetStr, dictGetStr, hsk, ih]
      | none => simp [dictSetStr, dictGetStr, ih]
      | bool b => simp [dictSetStr, dictGetStr, ih]
      | int n => simp [dictSetStr, dictGetStr, ih]
      | list xs => simp [dictSetStr, dictGetStr, ih]
      | dict xs => simp [dictSetStr, dictGetStr, ih]
      | toolMessage c t a => simp [dictSetStr, dictGetStr, ih]
      | obj o => simp [dictSetStr, dictGetStr, ih]

/-- A JSON-primitive key always renders. -/
theorem jsonKeyStrTotal (k : PyValue) (hk : jsonPrimitiveKey k = true) :
    ∃ s, jsonKeyStr k = Except.ok s := by
  cases k with
  | str s => exact ⟨_, rfl⟩
  | int n => exact ⟨_, rfl⟩
  | bool b => cases b <;> exact ⟨_, rfl⟩
  | none => exact ⟨_, rfl⟩
  | list xs => simp [jsonPrimitiveKey] at hk
  | dict kvs => simp [jsonPrimitiveKey] at hk
  | toolMessage c t a => simp [jsonPrimitiveKey] at hk
  | obj o => simp [jsonPrimitiveKey] at hk

mutual

/-- Serialization succeeds on every value whose dict keys are all primitive. -/
theorem jsonDumpsTotal : ∀ v : PyValue, keysPrimitive v = true →
    ∃ s, jsonDumps v = Except.ok s
  | .none, _ => ⟨"null", rfl⟩
  | .bool true, _ => ⟨"true", rfl⟩
  | .bool false, _ => ⟨"false", rfl⟩
  | .int n, _ => ⟨toString n, rfl⟩
  | .str s, _ => ⟨"\"" ++ jsonEscape s ++ "\"", rfl⟩
  | .list xs, h => by
      obtain ⟨parts, hp⟩ := jsonDumpsListTotal xs (by simpa [keysPrimitive] using h)
      exact ⟨"[" ++ String.intercalate ", " parts ++ "]", by simp [jsonDumps, hp]⟩
  | .dict kvs, h => by
      obtain ⟨parts, hp⟩ := jsonDumpsPairsTotal kvs (by simpa [keysPrimitive] using h)
      exact ⟨"\x7b" ++ String.intercalate ", " parts ++ "\x7d", by simp [jsonDumps, hp]⟩
  | .toolMessage c t a, _ => ⟨_, rfl⟩
  | .obj o, _ => ⟨_, rfl⟩

/-- Elementwise totality for lists. -/
theorem jsonDumpsListTotal : ∀ xs : List PyValue, keysPrimitiveList xs = true →
    ∃ ps, jsonDumpsList xs = Except.ok ps
  | [], _ => ⟨[], rfl⟩
  | x :: xs, h => by
      have hx : keysPrimitive x = true ∧ keysPrimitiveList xs = true := by
        simpa [keysPrimitiveList] using h
      obtain ⟨s, hs⟩ := jsonDumpsTotal x hx.1
      obtain ⟨ps, hps⟩ := jsonDumpsListTotal xs hx.2
      exact ⟨s :: ps, by simp [jsonDumpsList, hs, hps]⟩

/-- Pairwise totality for dicts with primitive keys. -/
theorem jsonDumpsPairsTotal : ∀ kvs : List (PyValue × PyValue),
    keysPrimitivePairs kvs = true → ∃ ps, jsonDumpsPairs kvs = Except.ok ps
  | [], _ => ⟨[], rfl⟩
  | (k, v) :: rest, h => by
      have hx : (jsonPrimitiveKey k = true ∧ keysPrimitive v = true)
          ∧ keysPrimitivePairs rest = true := by
        simpa [keysPrimitivePairs] using h
      obtain ⟨ks, hks⟩ := jsonKeyStrTotal k hx.1.1
      obtain ⟨vs, hvs⟩ := jsonDumpsTotal v hx.1.2
      obtain ⟨more, hmore⟩ := jsonDumpsPairsTotal rest hx.2
      exact ⟨("\"" ++ jsonEscape ks ++ "\": " ++ vs) :: more,
        by simp [jsonDumpsPairs, hks, hvs, hmore]⟩

end

/-! ## Claim theorems -/

/-- C1: the spec claims that every `invoke` invocation persists exactly one
per-call audit record and appends exactly one daily-summary line, whether the
wrapped call returns or raises.  The code violates this in the sync `invoke`:
`output_content` is never initialized before the `try` (unlike `ainvoke`,
line 273), so when the wrapped executor raises, the `finally` block's read of
`output_content` raises `UnboundLocalError` while evaluating the arguments of
`_write_audit_log` — no audit file is written and no summary line is appended.
This theorem evaluates the model at such a failing input: the caller gets
`UnboundLocalError` and the list of file-system events is empty. -/
theorem C1_invoke_raise_writes_nothing :
    invokeModel
      ⟨"0a1b2c3d-4e5f-6071-8293-a4b5c6d7e8f9", "ws/workspace/audit_logs",
       "120000", "20261012", "2026-10-12T12:00:00", 7⟩
      (simpleCallInput "internet_search" "call_abc"
        (.dict [(.str "query", .str "ai"), (.str "max_results", .int 3)]))
      (.error ⟨"ValueError", "boom"⟩)
    = (.error unboundLocalError, []) := rfl

/-- C2: the spec claims that when the wrapped executor raises, the caller
observes the same exception and a `status="failed"` audit record with the
error string is persisted.  In the sync `invoke` neither holds: the `finally`
block's read of the unassigned local `output_content` raises
`UnboundLocalError`, which displaces the original exception, and no record is
written at all.  (In `ainvoke`, where `output_content = None` is initialized,
the claimed behaviour does hold — see the C3 theorem.) -/
theorem C2_invoke_raise_displaced_and_unrecorded :
    invokeModel
      ⟨"11112222-3333-4444-5555-666677778888", "home/workspace/audit_logs",
       "093015", "20261011", "2026-10-11T09:30:15", 12⟩
      (simpleCallInput "internet_search" "abc123"
        (.dict [(.str "query", .str "ai")]))
      (.error ⟨"TimeoutError", "upstream timeout"⟩)
    = (.error unboundLocalError, [])
    ∧ unboundLocalError ≠ ⟨"TimeoutError", "upstream timeout"⟩ :=
  ⟨rfl, by decide⟩

/-- C3: the spec claims `invoke` and `ainvoke` have identical semantics for
every wrapped-executor behaviour.  They differ on the raise path: at the same
environment, input and executor exception, `ainvoke` appends the failed audit
record (one file write, one summary line) and re-raises the original
exception, while `invoke` raises `UnboundLocalError` and writes nothing. -/
theorem C3_invoke_ainvoke_differ_on_raise :
    (invokeModel
      ⟨"99990000-aaaa-bbbb-cccc-ddddeeeeffff", "srv/workspace/audit_logs",
       "181920", "20261010", "2026-10-10T18:19:20", 3⟩
      (simpleCallInput "tavily_search" "id42" (.dict []))
      (.error ⟨"RuntimeError", "socket closed"⟩)
     = (.error unboundLocalError, []))
    ∧ (ainvokeModel
      ⟨"99990000-aaaa-bbbb-cccc-ddddeeeeffff", "srv/workspace/audit_logs",
       "181920", "20261010", "2026-10-10T18:19:20", 3⟩
      (simpleCallInput "tavily_search" "id42" (.dict []))
      (.error ⟨"RuntimeError", "socket closed"⟩)
     = (.error ⟨"RuntimeError", "socket closed"⟩,
        [FSEvent.writeAuditFile "srv/workspace/audit_logs/181920_tavily_search.json"
          (buildAuditRecord (.str "tavily_search") (.str "id42")
            "2026-10-10T18:19:20" 3 (.dict []) .none (some "socket closed")),
         FSEvent.appendSummaryLine "srv/workspace/audit_logs/summary_20261010.jsonl"
          (buildAuditRecord (.str "tavily_search") (.str "id42")
            "2026-10-10T18:19:20" 3 (.dict []) .none (some "socket closed"))]))
    ∧ unboundLocalError ≠ ⟨"RuntimeError", "socket closed"⟩ :=
  ⟨rfl, rfl, by decide⟩

/-- C4 counterexample: the claim says the value returned by `invoke` for a
succeeding plain-string result starts with the audit-path-reference line.  At
a concrete succeeding call returning `"hello"`, `invoke` returns `"hello"`
itself — the rewrite in `_extract_output_content_and_add_audit_path` rebinds
only the local `output_content`, never the returned string — and `"hello"`
does not start with the path label. -/
theorem C4_counterexample :
    (invokeModel ⟨"uuuu1111-2222-3333-4444-555566667777", "base/workspace/audit_logs",
        "120000", "20261012", "2026-10-12T12:00:00", 5⟩
      (simpleCallInput "t" "abc" (.dict [])) (.ok (.str "hello"))).1
      = .ok (.str "hello")
    ∧ charsStartsWith "hello".data pathLabel.data = false :=
  ⟨rfl, by decide⟩

/-- C4 (amended): for a succeeding call whose wrapped result is a non-empty
plain string, `invoke` returns the original string unchanged; the
audit-path-reference line is prepended only to the audit record's `output`
field, not to the returned value. -/
theorem C4_plain_string_returned_unchanged (env : InvokeEnv) (name id : String)
    (args : PyValue) (s : String) (hs : s ≠ "") :
    (invokeModel env (simpleCallInput name id args) (.ok (.str s))).1 = .ok (.str s)
    ∧ (invokeModel env (simpleCallInput name id args) (.ok (.str s))).2 =
      write_audit_log_events
        (generate_audit_file_path env.audit_dir env.hhmmss (.str name))
        env.yyyymmdd
        (buildAuditRecord (.str name) (.str id) env.iso env.ms args
          (.str (pathLabel ++
            extract_from_workspace
              (generate_audit_file_path env.audit_dir env.hhmmss (.str name)) ++
            "\n" ++ s))
          Option.none) := by
  simp [invokeModel_simple_str env name id args s hs]

/-- Witness for C4 (amended) at the concrete string `"hello"`. -/
theorem C4_plain_string_returned_unchanged_witness :
    (("hello" : String) ≠ "")
    ∧ ((invokeModel ⟨"uuuu1111-2222-3333-4444-555566667777", "base/workspace/audit_logs",
          "120000", "20261012", "2026-10-12T12:00:00", 5⟩
        (simpleCallInput "t" "abc" (.dict [])) (.ok (.str "hello"))).1 = .ok (.str "hello")
      ∧ (invokeModel ⟨"uuuu1111-2222-3333-4444-555566667777", "base/workspace/audit_logs",
          "120000", "20261012", "2026-10-12T12:00:00", 5⟩
        (simpleCallInput "t" "abc" (.dict [])) (.ok (.str "hello"))).2 =
        write_audit_log_events
          (generate_audit_file_path "base/workspace/audit_logs" "120000" (.str "t"))
          "20261012"
          (buildAuditRecord (.str "t") (.str "abc") "2026-10-12T12:00:00" 5 (.dict [])
            (.str (pathLabel ++
              extract_from_workspace
                (generate_audit_file_path "base/workspace/audit_logs" "120000" (.str "t")) ++
              "\n" ++ "hello"))
            Option.none)) :=
  ⟨by decide,
   C4_plain_string_returned_unchanged
     ⟨"uuuu1111-2222-3333-4444-555566667777", "base/workspace/audit_logs",
      "120000", "20261012", "2026-10-12T12:00:00", 5⟩
     "t" "abc" (.dict []) "hello" (by decide)⟩

/-- C6 counterexample: the claim says the audit record's `output` always
equals the original output as produced by the tool, before the
audit-path-reference line is prepended.  At a concrete succeeding call
returning the plain string `"world"`, the persisted record's `output` is the
*rewritten* string (label + workspace-relative path + newline + original),
which differs from the original. -/
theorem C6_counterexample :
    (invokeModel ⟨"uuuu8888-9999-aaaa-bbbb-ccccddddeeee", "var/workspace/audit_logs",
        "101112", "20261012", "2026-10-12T10:11:12", 9⟩
      (simpleCallInput "t2" "abc2" (.dict [])) (.ok (.str "world"))).2 =
      write_audit_log_events "var/workspace/audit_logs/101112_t2.json" "20261012"
        (buildAuditRecord (.str "t2") (.str "abc2") "2026-10-12T10:11:12" 9 (.dict [])
          (.str (pathLabel ++ "workspace/audit_logs/101112_t2.json" ++ "\n" ++ "world"))
          Option.none)
    ∧ pathLabel ++ "workspace/audit_logs/101112_t2.json" ++ "\n" ++ "world" ≠ "world" :=
  ⟨rfl, by decide⟩

/-- C6 (amended): for a succeeding call returning a `ToolMessage` the
recorded `output` is the original (pre-rewrite) content, as claimed; but for
a succeeding call returning a non-empty plain string the recorded `output` is
the rewritten string while the caller receives the original unchanged. -/
theorem C6_recorded_output (env : InvokeEnv) (name id : String)
    (args c : PyValue) (tcid aux : String) (s : String) (hs : s ≠ "") :
    (invokeModel env (simpleCallInput name id args) (.ok (.toolMessage c tcid aux))).2 =
      write_audit_log_events
        (generate_audit_file_path env.audit_dir env.hhmmss (.str name))
        env.yyyymmdd
        (buildAuditRecord (.str name) (.str id) env.iso env.ms args c Option.none)
    ∧ (invokeModel env (simpleCallInput name id args) (.ok (.str s))).2 =
      write_audit_log_events
        (generate_audit_file_path env.audit_dir env.hhmmss (.str name))
        env.yyyymmdd
        (buildAuditRecord (.str name) (.str id) env.iso env.ms args
          (.str (pathLabel ++
            extract_from_workspace
              (generate_audit_file_path env.audit_dir env.hhmmss (.str name)) ++
            "\n" ++ s))
          Option.none)
    ∧ (invokeModel env (simpleCallInput name id args) (.ok (.str s))).1 = .ok (.str s) :=
  ⟨rfl,
   by simp [invokeModel_simple_str env name id args s hs],
   by simp [invokeModel_simple_str env name id args s hs]⟩

/-- Witness for C6 (amended) at a concrete `ToolMessage` and the concrete
string `"world"`. -/
theorem C6_recorded_output_witness :
    (("world" : String) ≠ "")
    ∧ ((invokeModel ⟨"uuuu8888-9999-aaaa-bbbb-ccccddddeeee", "var/workspace/audit_logs",
          "101112", "20261012", "2026-10-12T10:11:12", 9⟩
        (simpleCallInput "t2" "abc2" (.dict []))
        (.ok (.toolMessage (.str "orig") "abc2" "kw"))).2 =
        write_audit_log_events
          (generate_audit_file_path "var/workspace/audit_logs" "101112" (.str "t2"))
          "20261012"
          (buildAuditRecord (.str "t2") (.str "abc2") "2026-10-12T10:11:12" 9 (.dict [])
            (.str "orig") Option.none)
      ∧ (invokeModel ⟨"uuuu8888-9999-aaaa-bbbb-ccccddddeeee", "var/workspace/audit_logs",
          "101112", "20261012", "2026-10-12T10:11:12", 9⟩
        (simpleCallInput "t2" "abc2" (.dict [])) (.ok (.str "world"))).2 =
        write_audit_log_events
          (generate_audit_file_path "var/workspace/audit_logs" "101112" (.str "t2"))
          "20261012"
          (buildAuditRecord (.str "t2") (.str "abc2") "2026-10-12T10:11:12" 9 (.dict [])
            (.str (pathLabel ++
              extract_from_workspace
                (generate_audit_file_path "var/workspace/audit_logs" "101112" (.str "t2")) ++
              "\n" ++ "world"))
            Option.none)
      ∧ (invokeModel ⟨"uuuu8888-9999-aaaa-bbbb-ccccddddeeee", "var/workspace/audit_logs",
          "101112", "20261012", "2026-10-12T10:11:12", 9⟩
        (simpleCallInput "t2" "abc2" (.dict [])) (.ok (.str "world"))).1 = .ok (.str "world")) :=
  ⟨by decide,
   C6_recorded_output
     ⟨"uuuu8888-9999-aaaa-bbbb-ccccddddeeee", "var/workspace/audit_logs",
      "101112", "20261012", "2026-10-12T10:11:12", 9⟩
     "t2" "abc2" (.dict []) (.str "orig") "abc2" "kw" "world" (by decide)⟩

/-- C5 counterexample: the claim says every malformed tool-call input — in
particular a bare list whose first element is not a mapping — never raises
from the extraction step and resolves to tool name `"unknown"`.  In the code,
`input[0]` is taken without a shape check and `.get` is then called on it, so
`invoke(["oops"])` raises `AttributeError` before the `try` block; nothing is
written and no fallback is produced. -/
theorem C5_counterexample :
    invokeModel ⟨"77776666-5555-4444-3333-222211110000", "w/workspace/audit_logs",
        "070809", "20261009", "2026-10-09T07:08:09", 1⟩
      (.list [.str "oops"]) (.ok (.str "out"))
    = (.error ⟨"AttributeError", "'str' object has no attribute 'get'"⟩, []) := rfl

/-- C5 (amended): an empty mapping, a mapping-shaped input, or any non-list
non-mapping value resolves without raising to tool name `"unknown"`, the
synthesized 8-character id (`str(uuid.uuid4())[:8]`) and empty arguments; but
a bare list whose first element is not a mapping raises `AttributeError` from
the extraction step. -/
theorem C5_fallback_extraction (uuid : String) (input v : PyValue)
    (rest : List PyValue) (hu : uuid.length = 36)
    (hin : input = .dict [] ∨ ((∀ xs, input ≠ .list xs) ∧ ∀ kvs, input ≠ .dict kvs))
    (hv : ∀ kvs, v ≠ .dict kvs) :
    (extractToolCall input uuid = .ok (.str "unknown", .str (strTake uuid 8), .dict [])
      ∧ (strTake uuid 8).length = 8)
    ∧ ∃ m, extractToolCall (.list (v :: rest)) uuid = .error ⟨"AttributeError", m⟩ := by
  refine ⟨⟨?_, ?_⟩, ?_⟩
  · rcases hin with h | ⟨hl, hd⟩
    · subst h; rfl
    · cases input with
      | list xs => exact absurd rfl (hl xs)
      | dict kvs => exact absurd rfl (hd kvs)
      | none => rfl
      | bool b => rfl
      | int n => rfl
      | str s => rfl
      | toolMessage c t a => rfl
      | obj o => rfl
  · have hd : uuid.data.length = 36 := hu
    show (uuid.data.take 8).length = 8
    simp [List.length_take, hd]
  · cases v with
    | dict kvs => exact absurd rfl (hv kvs)
    | none => exact ⟨_, rfl⟩
    | bool b => exact ⟨_, rfl⟩
    | int n => exact ⟨_, rfl⟩
    | str s => exact ⟨_, rfl⟩
    | list xs => exact ⟨_, rfl⟩
    | toolMessage c t a => exact ⟨_, rfl⟩
    | obj o => exact ⟨_, rfl⟩

/-- Witness for C5 (amended): input `"zzz"` (non-list non-mapping) resolves
to the `"unknown"` fallback with an 8-character synthesized id, and the bare
list `[5]` raises `AttributeError`. -/
theorem C5_fallback_extraction_witness :
    ("01234567-89ab-cdef-0123-456789abcdef" : String).length = 36
    ∧ ((PyValue.str "zzz") = .dict []
        ∨ ((∀ xs, (PyValue.str "zzz") ≠ .list xs) ∧ ∀ kvs, (PyValue.str "zzz") ≠ .dict kvs))
    ∧ (∀ kvs, (PyValue.int 5) ≠ .dict kvs)
    ∧ ((extractToolCall (.str "zzz") "01234567-89ab-cdef-0123-456789abcdef"
          = .ok (.str "unknown",
                 .str (strTake "01234567-89ab-cdef-0123-456789abcdef" 8), .dict [])
        ∧ (strTake "01234567-89ab-cdef-0123-456789abcdef" 8).length = 8)
      ∧ ∃ m, extractToolCall (.list [.int 5]) "01234567-89ab-cdef-0123-456789abcdef"
          = .error ⟨"AttributeError", m⟩) :=
  ⟨by decide,
   Or.inr ⟨fun _ h => PyValue.noConfusion h, fun _ h => PyValue.noConfusion h⟩,
   fun _ h => PyValue.noConfusion h,
   C5_fallback_extraction "01234567-89ab-cdef-0123-456789abcdef" (.str "zzz") (.int 5) []
     (by decide)
     (Or.inr ⟨fun _ h => PyValue.noConfusion h, fun _ h => PyValue.noConfusion h⟩)
     (fun _ h => PyValue.noConfusion h)⟩

/-- C7: for a succeeding call returning a mapping with a `messages` sequence
whose first element is a `ToolMessage`, only that element's `content` is
rewritten (label-prefixed); its other fields and the tail of the sequence are
carried over unchanged, and the lookup of any other key `k` of the mapping is
unchanged. -/
theorem C7_messages_head_rewrite (kvs : List (PyValue × PyValue))
    (rest : List PyValue) (c : PyValue) (tcid aux : String) (path : String)
    (k : String) (hk : k ≠ "messages")
    (h : dictGetStr kvs "messages" = some (.list (.toolMessage c tcid aux :: rest))) :
    extract_output_content_and_add_audit_path (.dict kvs) path =
      .ok (c, .dict (dictSetStr kvs "messages"
        (.list (.toolMessage (attach_audit_file_path c path) tcid aux :: rest))))
    ∧ dictGetStr (dictSetStr kvs "messages"
        (.list (.toolMessage (attach_audit_file_path c path) tcid aux :: rest))) k
      = dictGetStr kvs k := by
  refine ⟨?_, dictGetStr_setStr_ne kvs "messages" k _ hk⟩
  cases kvs with
  | nil => simp [dictGetStr] at h
  | cons p ps =>
      simp [extract_output_content_and_add_audit_path, PyValue.truthy, h, pyIndex0]

/-- Witness for C7 at a concrete two-key mapping. -/
theorem C7_messages_head_rewrite_witness :
    (("other" : String) ≠ "messages")
    ∧ dictGetStr [(.str "messages", .list [.toolMessage (.str "hi") "t1" "x"]),
                  (.str "other", .int 7)] "messages"
        = some (.list (.toolMessage (.str "hi") "t1" "x" :: []))
    ∧ (extract_output_content_and_add_audit_path
        (.dict [(.str "messages", .list [.toolMessage (.str "hi") "t1" "x"]),
                (.str "other", .int 7)]) "p"
        = .ok (.str "hi",
            .dict (dictSetStr [(.str "messages", .list [.toolMessage (.str "hi") "t1" "x"]),
                               (.str "other", .int 7)] "messages"
              (.list (.toolMessage (attach_audit_file_path (.str "hi") "p") "t1" "x" :: []))))
      ∧ dictGetStr (dictSetStr [(.str "messages", .list [.toolMessage (.str "hi") "t1" "x"]),
                                (.str "other", .int 7)] "messages"
          (.list (.toolMessage (attach_audit_file_path (.str "hi") "p") "t1" "x" :: []))) "other"
        = dictGetStr [(.str "messages", .list [.toolMessage (.str "hi") "t1" "x"]),
                      (.str "other", .int 7)] "other") :=
  ⟨by decide, rfl,
   C7_messages_head_rewrite
     [(.str "messages", .list [.toolMessage (.str "hi") "t1" "x"]), (.str "other", .int 7)]
     [] (.str "hi") "t1" "x" "p" "other" (by decide) rfl⟩

/-- C8 counterexample: the claim says `status = "failed"` iff `error` is
non-null, for every error string including the empty one.  The code derives
the status by Python truthiness (`"failed" if error else "success"`), so a
record built with the non-null empty error string gets `status = "success"`. -/
theorem C8_counterexample :
    (buildAuditRecord (.str "t") (.str "abc") "iso" 0 (.dict []) .none (some "")).error
      = some ""
    ∧ (buildAuditRecord (.str "t") (.str "abc") "iso" 0 (.dict []) .none (some "")).status
      = "success"
    ∧ ("success" : String) ≠ "failed" :=
  ⟨rfl, rfl, by decide⟩

/-- C8 (amended): in every audit record, `status = "failed"` iff the error
field is *truthy* — non-null and non-empty; a null or empty error yields
`status = "success"`, and no third status value occurs. -/
theorem C8_status_iff_truthy_error (tn tcid : PyValue) (iso : String) (ms : Nat)
    (inp out : PyValue) (err : Option String) :
    ((buildAuditRecord tn tcid iso ms inp out err).status = "failed"
      ↔ ∃ s, err = some s ∧ s ≠ "")
    ∧ ((buildAuditRecord tn tcid iso ms inp out err).status = "success"
      ∨ (buildAuditRecord tn tcid iso ms inp out err).status = "failed") := by
  cases err with
  | none => simp [buildAuditRecord]
  | some s =>
      by_cases hs : s = ""
      · subst hs; simp [buildAuditRecord]
      · simp [buildAuditRecord, hs]

/-- C9: when the wrapped call succeeds with a falsy value (empty string,
empty mapping, `None`, `0`, ...), `invoke` performs no extraction or rewrite:
the value is returned to the caller unmodified, and the persisted record has
`output = None` (null) while its status is `"success"`. -/
theorem C9_falsy_result_passthrough (env : InvokeEnv) (name id : String)
    (args r : PyValue) (h : r.truthy = false) :
    invokeModel env (simpleCallInput name id args) (.ok r) =
      (.ok r,
       write_audit_log_events
         (generate_audit_file_path env.audit_dir env.hhmmss (.str name))
         env.yyyymmdd
         (buildAuditRecord (.str name) (.str id) env.iso env.ms args .none Option.none))
    ∧ (buildAuditRecord (.str name) (.str id) env.iso env.ms args .none Option.none).output
      = .none
    ∧ (buildAuditRecord (.str name) (.str id) env.iso env.ms args .none Option.none).status
      = "success" := by
  refine ⟨?_, rfl, rfl⟩
  have he : extract_output_content_and_add_audit_path r
      (generate_audit_file_path env.audit_dir env.hhmmss (.str name)) = .ok (.none, r) := by
    simp [extract_output_content_and_add_audit_path, h]
  simp [invokeModel, extractToolCall_simple, he, finishWith, pySliceCheck]

/-- Witness for C9 at the falsy result `""`. -/
theorem C9_falsy_result_passthrough_witness :
    (PyValue.str "").truthy = false
    ∧ (invokeModel ⟨"eeeeffff-0000-1111-2222-333344445555", "opt/workspace/audit_logs",
          "235959", "20261231", "2026-12-31T23:59:59", 4⟩
        (simpleCallInput "t9" "id9" (.dict [])) (.ok (.str "")) =
        (.ok (.str ""),
         write_audit_log_events
           (generate_audit_file_path "opt/workspace/audit_logs" "235959" (.str "t9"))
           "20261231"
           (buildAuditRecord (.str "t9") (.str "id9") "2026-12-31T23:59:59" 4 (.dict [])
             .none Option.none))
      ∧ (buildAuditRecord (.str "t9") (.str "id9") "2026-12-31T23:59:59" 4 (.dict [])
          .none Option.none).output = .none
      ∧ (buildAuditRecord (.str "t9") (.str "id9") "2026-12-31T23:59:59" 4 (.dict [])
          .none Option.none).status = "success") :=
  ⟨rfl,
   C9_falsy_result_passthrough
     ⟨"eeeeffff-0000-1111-2222-333344445555", "opt/workspace/audit_logs",
      "235959", "20261231", "2026-12-31T23:59:59", 4⟩
     "t9" "id9" (.dict []) (.str "") rfl⟩

/-- C10 counterexample: the claim says serializing the audit record never
fails for any input/output payload because `default=str` coerces
unserializable values.  But `json.dump`'s `default` hook is not consulted for
dict *keys*: a record whose `input` payload is a mapping keyed by a plain
(hashable) object makes the dump raise
`TypeError: keys must be str, int, float, bool or None, ...` — serialization
is not total over all payloads. -/
theorem C10_counterexample :
    jsonDumps (auditRecordToValue (buildAuditRecord (.str "t") (.str "abc") "iso" 0
      (.dict [(.obj "<object at 0x1>", .int 1)]) .none Option.none))
    = .error "keys must be str, int, float, bool or None, not object" := rfl

/-- C10 (amended): with `default=str`, record serialization succeeds for every
record whose payloads (`tool_call_id`, `tool_name`, `input`, `output`) contain
only JSON-primitive dict keys, no matter what unserializable values they hold
in value position; only a payload mapping keyed by a non-primitive object
still raises. -/
theorem C10_serialization_total_for_primitive_keys (r : AuditRecord)
    (h1 : keysPrimitive r.tool_call_id = true)
    (h2 : keysPrimitive r.tool_name = true)
    (h3 : keysPrimitive r.input = true)
    (h4 : keysPrimitive r.output = true) :
    ∃ s, jsonDumps (auditRecordToValue r) = Except.ok s := by
  apply jsonDumpsTotal
  simp [auditRecordToValue, keysPrimitive, keysPrimitivePairs, jsonPrimitiveKey,
    h1, h2, h3, h4]
  cases r.error <;> simp [keysPrimitive]

/-- Witness for C10 (amended): a record whose `input` holds an unserializable
*value* (an object in value position) still serializes. -/
theorem C10_serialization_total_witness :
    keysPrimitive (buildAuditRecord (.str "t") (.str "abc") "iso" 3
        (.dict [(.str "q", .obj "<object at 0x2>")]) (.str "out") Option.none).tool_call_id
      = true
    ∧ keysPrimitive (buildAuditRecord (.str "t") (.str "abc") "iso" 3
        (.dict [(.str "q", .obj "<object at 0x2>")]) (.str "out") Option.none).tool_name
      = true
    ∧ keysPrimitive (buildAuditRecord (.str "t") (.str "abc") "iso" 3
        (.dict [(.str "q", .obj "<object at 0x2>")]) (.str "out") Option.none).input
      = true
    ∧ keysPrimitive (buildAuditRecord (.str "t") (.str "abc") "iso" 3
        (.dict [(.str "q", .obj "<object at 0x2>")]) (.str "out") Option.none).output
      = true
    ∧ ∃ s, jsonDumps (auditRecordToValue (buildAuditRecord (.str "t") (.str "abc") "iso" 3
        (.dict [(.str "q", .obj "<object at 0x2>")]) (.str "out") Option.none))
      = Except.ok s :=
  ⟨rfl, rfl, rfl, rfl,
   C10_serialization_total_for_primitive_keys
     (buildAuditRecord (.str "t") (.str "abc") "iso" 3
       (.dict [(.str "q", .obj "<object at 0x2>")]) (.str "out") Option.none)
     rfl rfl rfl rfl⟩

end Audit
